import Mathlib

/-!
Verification of the mcp2515-banged CAN driver core
(`src/mcp2515-banged/src/mcp2515-banged.c`) against its natural-language
specification.  The C code is shallowly embedded: bytes and registers are
`Nat` with explicit masking to 8 bits where the C `u8` type truncates,
buffers are `List Nat`, and the interrupt-handler pass is a pure state
transformer.  Each definition mirrors the corresponding C function.
-/

set_option maxRecDepth 16384

namespace Mcp2515

/- SPI instruction set (mcp2515-banged.c lines 57-67). -/

def INSTRUCTION_WRITE : Nat := 0x02
def INSTRUCTION_READ : Nat := 0x03
def INSTRUCTION_BIT_MODIFY : Nat := 0x05
def INSTRUCTION_LOAD_TXB (n : Nat) : Nat := 0x40 + 2 * n
def INSTRUCTION_RESET : Nat := 0xC0

/- Register map and bit fields (lines 70-177). -/

def CANSTAT : Nat := 0x0e
def CANCTRL : Nat := 0x0f
def CNF1 : Nat := 0x2a
def CNF1_SJW_SHIFT : Nat := 6
def CNF2 : Nat := 0x29
def CNF2_BTLMODE : Nat := 0x80
def CNF2_SAM : Nat := 0x40
def CNF2_PS1_SHIFT : Nat := 3
def CNF3 : Nat := 0x28
def CNF3_PHSEG2_MASK : Nat := 0x07
def CANINTF : Nat := 0x2c
def CANINTF_MERRF : Nat := 0x80
def CANINTF_WAKIF : Nat := 0x40
def CANINTF_ERRIF : Nat := 0x20
def CANINTF_TX2IF : Nat := 0x10
def CANINTF_TX1IF : Nat := 0x08
def CANINTF_TX0IF : Nat := 0x04
def CANINTF_RX1IF : Nat := 0x02
def CANINTF_RX0IF : Nat := 0x01
def CANINTF_RX : Nat := CANINTF_RX0IF ||| CANINTF_RX1IF
def CANINTF_TX : Nat := CANINTF_TX2IF ||| CANINTF_TX1IF ||| CANINTF_TX0IF
def CANINTF_ERR : Nat := CANINTF_ERRIF
def EFLG : Nat := 0x2d
def EFLG_EWARN : Nat := 0x01
def EFLG_RXWAR : Nat := 0x02
def EFLG_TXWAR : Nat := 0x04
def EFLG_RXEP : Nat := 0x08
def EFLG_TXEP : Nat := 0x10
def EFLG_TXBO : Nat := 0x20
def EFLG_RX0OVR : Nat := 0x40
def EFLG_RX1OVR : Nat := 0x80

def SIDH_SHIFT : Nat := 3
def SIDL_SID_MASK : Nat := 7
def SIDL_SID_SHIFT : Nat := 5
def SIDL_EXIDE_SHIFT : Nat := 3
def SIDL_EID_SHIFT : Nat := 16
def SIDL_EID_MASK : Nat := 3
def DLC_RTR_SHIFT : Nat := 6

def TXBCTRL_OFF : Nat := 0
def TXBSIDH_OFF : Nat := 1
def TXBSIDL_OFF : Nat := 2
def TXBEID8_OFF : Nat := 3
def TXBEID0_OFF : Nat := 4
def TXBDLC_OFF : Nat := 5
def TXBDAT_OFF : Nat := 6

def RXBSIDH_SHIFT : Nat := 3
def RXBSIDL_IDE : Nat := 0x08
def RXBSIDL_SRR : Nat := 0x10
def RXBSIDL_EID : Nat := 3
def RXBSIDL_SHIFT : Nat := 5
def RXBCTRL_OFF : Nat := 0
def RXBSIDH_OFF : Nat := 1
def RXBSIDL_OFF : Nat := 2
def RXBEID8_OFF : Nat := 3
def RXBEID0_OFF : Nat := 4
def RXBDLC_OFF : Nat := 5
def RXBDAT_OFF : Nat := 6
def RXBDLC_LEN_MASK : Nat := 0x0f
def RXBDLC_RTR : Nat := 0x40

def CAN_FRAME_MAX_DATA_LEN : Nat := 8
def SPI_TRANSFER_BUF_LEN : Nat := 6 + CAN_FRAME_MAX_DATA_LEN

/- Linux CAN constants used by the driver (from linux/can.h,
linux/can/netlink.h, linux/can/error.h; part of the driver's fixed
environment). -/

def CAN_EFF_FLAG : Nat := 0x80000000
def CAN_RTR_FLAG : Nat := 0x40000000
def CAN_SFF_MASK : Nat := 0x000007FF
def CAN_EFF_MASK : Nat := 0x1FFFFFFF

def CAN_STATE_ERROR_ACTIVE : Nat := 0
def CAN_STATE_ERROR_WARNING : Nat := 1
def CAN_STATE_ERROR_PASSIVE : Nat := 2
def CAN_STATE_BUS_OFF : Nat := 3
def CAN_STATE_STOPPED : Nat := 4

def CAN_ERR_CRTL : Nat := 0x004
def CAN_ERR_BUSOFF : Nat := 0x040
def CAN_ERR_CRTL_RX_OVERFLOW : Nat := 0x01
def CAN_ERR_CRTL_RX_WARNING : Nat := 0x04
def CAN_ERR_CRTL_TX_WARNING : Nat := 0x08
def CAN_ERR_CRTL_RX_PASSIVE : Nat := 0x10
def CAN_ERR_CRTL_TX_PASSIVE : Nat := 0x20

/- `GET_BYTE` / `SET_BYTE` macros (lines 179-182). -/

def GET_BYTE (val byte : Nat) : Nat := (val >>> (byte * 8)) &&& 0xff
def SET_BYTE (val byte : Nat) : Nat := (val &&& 0xff) <<< (byte * 8)

/-!
### Line transport : `mcp2515_spi_trans` (lines 317-333)

The inner loop of the bit-banged transfer for one byte.  `data_out` is the
byte taken from the tx buffer; `miso` is the sequence of levels present on
the MISO line at the successive sampling points (one per clock cycle).
The result is the list of levels driven onto MOSI, one per clock cycle, in
order, together with the assembled inbound byte `data_in`.

The C loop body is, for each of the 8 iterations:
  clock low; MOSI := (data_out & 0x80) ? 1 : 0; clock high;
  data_in <<= 1; if MISO then data_in |= 0x01.
Note that `data_out` is never modified inside the loop, so the driven MOSI
level is computed from bit 7 of the unshifted byte at every iteration.
-/

def spiTransBitStep (data_out : Nat) (data_in : Nat) (miso : Bool) :
    Bool × Nat :=
  let mosi := decide (data_out &&& 0x80 ≠ 0)
  let d := (data_in <<< 1) &&& 0xff
  let d := if miso then d ||| 0x01 else d
  (mosi, d)

def spiTransByte (data_out : Nat) (miso : List Bool) : List Bool × Nat :=
  miso.foldl
    (fun acc m =>
      let step := spiTransBitStep data_out acc.2 m
      (acc.1 ++ [step.1], step.2))
    ([], 0)

/-- Whole-transfer model: for each tx byte, run the 8-clock byte loop with
that byte's MISO samples; collect the driven MOSI levels and the rx bytes. -/
def spiTrans (txBuf : List Nat) (miso : List (List Bool)) :
    List (List Bool) × List Nat :=
  let pairs := txBuf.zip miso
  (pairs.map fun p => (spiTransByte p.1 p.2).1,
   pairs.map fun p => (spiTransByte p.1 p.2).2)

/-- The MSB-first bit sequence of a byte, as the specification describes the
outbound shift: bit 7 first, bit 0 last. -/
def msbFirstBits (b : Nat) : List Bool :=
  (List.range 8).map fun j => b.testBit (7 - j)

/-- The inbound byte the specification describes: assembled MSB-first from
the 8 sampled data-in levels. -/
def msbFirstByte (miso : List Bool) : Nat :=
  miso.foldl (fun d m => (d <<< 1) ||| (if m then 1 else 0)) 0

/-!
### Frame codec

`mcp2515_hw_tx` (lines 407-433) packs a CAN frame into the transmit
mailbox wire buffer; `mcp2515_hw_rx` (lines 443-488) unpacks a receive
mailbox register image into a frame.
-/

/-- A CAN frame as the driver sees it: `can_id` carries the identifier plus
the EFF/RTR flag bits (as in `struct can_frame`), `can_dlc` the data length
code, `data` the payload bytes. -/
structure CanFrame where
  can_id : Nat
  can_dlc : Nat
  data : List Nat
deriving DecidableEq, Repr

/-- Wire buffer built by `mcp2515_hw_tx`: instruction byte, SIDH, SIDL,
EID8, EID0, DLC, then `can_dlc` data bytes.  Every store into `buf` is a
`u8` store, hence the `&&& 0xff`. -/
def mcp2515_hw_tx_buf (frame : CanFrame) (tx_buf_idx : Nat) : List Nat :=
  let exide : Nat := if frame.can_id &&& CAN_EFF_FLAG ≠ 0 then 1 else 0
  let sid : Nat :=
    if exide = 1 then (frame.can_id &&& CAN_EFF_MASK) >>> 18
    else frame.can_id &&& CAN_SFF_MASK
  let eid : Nat := frame.can_id &&& CAN_EFF_MASK
  let rtr : Nat := if frame.can_id &&& CAN_RTR_FLAG ≠ 0 then 1 else 0
  [INSTRUCTION_LOAD_TXB tx_buf_idx &&& 0xff,
   (sid >>> SIDH_SHIFT) &&& 0xff,
   (((sid &&& SIDL_SID_MASK) <<< SIDL_SID_SHIFT) |||
     (exide <<< SIDL_EXIDE_SHIFT) |||
     ((eid >>> SIDL_EID_SHIFT) &&& SIDL_EID_MASK)) &&& 0xff,
   GET_BYTE eid 1,
   GET_BYTE eid 0,
   ((rtr <<< DLC_RTR_SHIFT) ||| frame.can_dlc) &&& 0xff] ++
  frame.data.take frame.can_dlc

/-- The kernel helper `get_can_dlc(i)` = `min_t(u8, i, CAN_MAX_DLC)` from
linux/can/dev.h, with `CAN_MAX_DLC = 8`; part of the driver's fixed
environment. -/
def get_can_dlc (i : Nat) : Nat := min i CAN_FRAME_MAX_DATA_LEN

/-- Identifier reconstruction of `mcp2515_hw_rx` (lines 456-477) from the
14-byte receive-mailbox image `buf` (offsets as in the C code). -/
def mcp2515_hw_rx_id (buf : List Nat) : Nat :=
  let sidh := buf.getD RXBSIDH_OFF 0
  let sidl := buf.getD RXBSIDL_OFF 0
  let eid8 := buf.getD RXBEID8_OFF 0
  let eid0 := buf.getD RXBEID0_OFF 0
  let dlcb := buf.getD RXBDLC_OFF 0
  if sidl &&& RXBSIDL_IDE ≠ 0 then
    let base :=
      CAN_EFF_FLAG |||
      SET_BYTE (sidl &&& RXBSIDL_EID) 2 |||
      SET_BYTE eid8 1 |||
      SET_BYTE eid0 0 |||
      (((sidh <<< RXBSIDH_SHIFT) ||| (sidl >>> RXBSIDL_SHIFT)) <<< 18)
    if dlcb &&& RXBDLC_RTR ≠ 0 then base ||| CAN_RTR_FLAG else base
  else
    let base := (sidh <<< RXBSIDH_SHIFT) ||| (sidl >>> RXBSIDL_SHIFT)
    if sidl &&& RXBSIDL_SRR ≠ 0 then base ||| CAN_RTR_FLAG else base

/-- Full receive decode of `mcp2515_hw_rx` (lines 456-480): identifier,
clamped DLC, and the copied-out data bytes. -/
def mcp2515_hw_rx_decode (buf : List Nat) : CanFrame :=
  let dlc := get_can_dlc (buf.getD RXBDLC_OFF 0 &&& RXBDLC_LEN_MASK)
  { can_id := mcp2515_hw_rx_id buf
    can_dlc := dlc
    data := (buf.drop RXBDAT_OFF).take dlc }

/-!
### Register bit-modify effect

`mcp2515_write_bits` (lines 389-400) sends the BIT-MODIFY instruction
[0x05, reg, mask, val] to the chip.

Modelled from the spec: the register-level effect of
`writeMaskedBits(addr, mask, value)` — "only bits set in mask are
affected" (spec section 4.2) — is not itself code of this repository (it is
the chip's documented behaviour of the BIT-MODIFY instruction); on an 8-bit
register it is reg := (reg AND NOT mask) OR (value AND mask), with NOT
taken within 8 bits. -/
def bitModify (reg mask val : Nat) : Nat :=
  (reg &&& (0xff ^^^ mask)) ||| (val &&& mask)

/-!
### Bit timing : `mcp2515_do_set_bittiming` (lines 569-584)
-/

/-- The bit-timing inputs (struct can_bittiming fields used by the code),
all one-based. -/
structure CanBittiming where
  sjw : Nat
  brp : Nat
  phase_seg1 : Nat
  phase_seg2 : Nat
  prop_seg : Nat
deriving DecidableEq, Repr

/-- Value written to CNF1: `((bt->sjw - 1) << CNF1_SJW_SHIFT) | (bt->brp - 1)`,
truncated to the 8-bit register. -/
def cnf1Val (bt : CanBittiming) : Nat :=
  (((bt.sjw - 1) <<< CNF1_SJW_SHIFT) ||| (bt.brp - 1)) &&& 0xff

/-- Value written to CNF2: `CNF2_BTLMODE | (sam ? CNF2_SAM : 0) |
((bt->phase_seg1 - 1) << CNF2_PS1_SHIFT) | (bt->prop_seg - 1)`. -/
def cnf2Val (bt : CanBittiming) (threeSamples : Bool) : Nat :=
  (CNF2_BTLMODE ||| (if threeSamples then CNF2_SAM else 0) |||
    ((bt.phase_seg1 - 1) <<< CNF2_PS1_SHIFT) ||| (bt.prop_seg - 1)) &&& 0xff

/-- CNF3 after `mcp2515_write_bits(priv, CNF3, CNF3_PHSEG2_MASK,
bt->phase_seg2 - 1)`, starting from previous register content `old`. -/
def cnf3Updated (old : Nat) (bt : CanBittiming) : Nat :=
  bitModify old CNF3_PHSEG2_MASK (bt.phase_seg2 - 1)

/-!
### Transmit submission : `mcp2515_hard_start_xmit` (lines 495-512)
-/

/-- The pending-transmit slot of `struct mcp2515_priv`: `tx_skb` and
`tx_len`. -/
structure XmitSlot where
  tx_skb : Option CanFrame
  tx_len : Nat
deriving DecidableEq, Repr

/-- Return values of the xmit hook. -/
inductive NetdevTxResult where
  | busy : NetdevTxResult
  | ok : NetdevTxResult
deriving DecidableEq, Repr

/-- `mcp2515_hard_start_xmit`: if the slot is occupied (`tx_skb` or
`tx_len` nonzero) return NETDEV_TX_BUSY leaving the slot alone; else if the
skb is invalid (`can_dropped_invalid_skb`) drop it and return OK; else
record the frame in the slot (and queue the tx work) and return OK. -/
def mcp2515_hard_start_xmit (skb : CanFrame) (skbValid : Bool)
    (s : XmitSlot) : NetdevTxResult × XmitSlot :=
  if s.tx_skb.isSome ∨ s.tx_len ≠ 0 then
    (.busy, s)
  else if ¬skbValid then
    (.ok, s)
  else
    (.ok, { s with tx_skb := some skb })

/-!
### Interrupt handler : `mcp2515_can_ist` (lines 769-894)

One iteration of the `while (!priv->force_quit)` loop is modelled as a pure
function of the two register bytes read at the top of the pass (`intf` from
CANINTF, `eflag` from EFLG) and the driver state.  Register writes and
frame deliveries are recorded as outputs.
-/

/-- The driver/network state the handler reads and mutates. -/
structure IstState where
  canState : Nat
  errorWarning : Nat
  errorPassive : Nat
  txLen : Nat
  restartMs : Nat
  forceQuit : Bool
  txPackets : Nat
  rxOverErrors : Nat
  rxErrors : Nat
deriving DecidableEq, Repr

/-- Observable effects of one pass. -/
structure IstPassResult where
  s : IstState
  rx0 : Bool
  rx1 : Bool
  clearIntf : Nat
  eflgClear : Nat
  errFrame : Option (Nat × Nat)
  txDone : Bool
  brk : Bool
deriving DecidableEq, Repr

/-- `new_state` from the first-match-wins chain on `eflag`
(lines 812-833). -/
def ist_new_state (eflag : Nat) : Nat :=
  if eflag &&& EFLG_TXBO ≠ 0 then CAN_STATE_BUS_OFF
  else if eflag &&& EFLG_TXEP ≠ 0 then CAN_STATE_ERROR_PASSIVE
  else if eflag &&& EFLG_RXEP ≠ 0 then CAN_STATE_ERROR_PASSIVE
  else if eflag &&& EFLG_TXWAR ≠ 0 then CAN_STATE_ERROR_WARNING
  else if eflag &&& EFLG_RXWAR ≠ 0 then CAN_STATE_ERROR_WARNING
  else CAN_STATE_ERROR_ACTIVE

/-- The `can_id |=` accumulation of the same chain (lines 812-833); the C
code assigns `new_state`, `can_id` and `data1` in a single if-else chain,
split here into one definition per variable. -/
def ist_err_can_id (eflag : Nat) : Nat :=
  if eflag &&& EFLG_TXBO ≠ 0 then CAN_ERR_BUSOFF
  else if eflag &&& EFLG_TXEP ≠ 0 then CAN_ERR_CRTL
  else if eflag &&& EFLG_RXEP ≠ 0 then CAN_ERR_CRTL
  else if eflag &&& EFLG_TXWAR ≠ 0 then CAN_ERR_CRTL
  else if eflag &&& EFLG_RXWAR ≠ 0 then CAN_ERR_CRTL
  else 0

/-- The `data1 |=` accumulation of the same chain (lines 812-833). -/
def ist_err_data1 (eflag : Nat) : Nat :=
  if eflag &&& EFLG_TXBO ≠ 0 then 0
  else if eflag &&& EFLG_TXEP ≠ 0 then CAN_ERR_CRTL_TX_PASSIVE
  else if eflag &&& EFLG_RXEP ≠ 0 then CAN_ERR_CRTL_RX_PASSIVE
  else if eflag &&& EFLG_TXWAR ≠ 0 then CAN_ERR_CRTL_TX_WARNING
  else if eflag &&& EFLG_RXWAR ≠ 0 then CAN_ERR_CRTL_RX_WARNING
  else 0

/-- The `switch (priv->can.state)` statistics update (lines 835-848): the
ERROR_ACTIVE case falls through into the ERROR_WARNING case.  Returns the
new (error_warning, error_passive) counter pair. -/
def canStatsUpdate (oldState newState ew ep : Nat) : Nat × Nat :=
  if oldState = CAN_STATE_ERROR_ACTIVE then
    ((if CAN_STATE_ERROR_WARNING ≤ newState ∧ newState ≤ CAN_STATE_BUS_OFF
      then ew + 1 else ew),
     (if CAN_STATE_ERROR_PASSIVE ≤ newState ∧ newState ≤ CAN_STATE_BUS_OFF
      then ep + 1 else ep))
  else if oldState = CAN_STATE_ERROR_WARNING then
    (ew,
     (if CAN_STATE_ERROR_PASSIVE ≤ newState ∧ newState ≤ CAN_STATE_BUS_OFF
      then ep + 1 else ep))
  else (ew, ep)

/-- One pass of the handler loop body (lines 776-891), from the raw CANINTF
byte `intfRaw`, the EFLG byte `eflag` and driver state `s0`.  `brk = true`
means the `while` loop exits after this pass (either the bus-off
force-quit `break`, or the `intf == 0` quiescent `break`); `txDone` records
whether the transmit-completion block at the bottom of the loop ran.  The
C control flow is factored so that each output field of the result is
computed once: the three trailing branches of the loop body (bus-off
check, `intf == 0` check, transmit handling) only decide the final state,
the break, and the tx notification. -/
def mcp2515_can_ist_pass (intfRaw eflag : Nat) (s0 : IstState) :
    IstPassResult :=
  let intf := intfRaw &&& (CANINTF_RX ||| CANINTF_TX ||| CANINTF_ERR)
  let rx0 := decide (intf &&& CANINTF_RX0IF ≠ 0)
  let rx1 := decide (intf &&& CANINTF_RX1IF ≠ 0)
  let clear_intf : Nat :=
    if intf &&& (CANINTF_ERR ||| CANINTF_TX) ≠ 0 then
      intf &&& (CANINTF_ERR ||| CANINTF_TX)
    else 0
  let eflgClear := eflag
  let new_state := ist_new_state eflag
  let counters :=
    canStatsUpdate s0.canState new_state s0.errorWarning s0.errorPassive
  let s1 := { s0 with canState := new_state,
                      errorWarning := counters.1,
                      errorPassive := counters.2 }
  let errStep :
      IstState × Option (Nat × Nat) :=
    if intf &&& CANINTF_ERRIF ≠ 0 then
      if eflag &&& (EFLG_RX0OVR ||| EFLG_RX1OVR) ≠ 0 then
        let sA :=
          if eflag &&& EFLG_RX0OVR ≠ 0 then
            { s1 with rxOverErrors := s1.rxOverErrors + 1,
                      rxErrors := s1.rxErrors + 1 }
          else s1
        let sB :=
          if eflag &&& EFLG_RX1OVR ≠ 0 then
            { sA with rxOverErrors := sA.rxOverErrors + 1,
                      rxErrors := sA.rxErrors + 1 }
          else sA
        (sB, some (ist_err_can_id eflag ||| CAN_ERR_CRTL,
                   ist_err_data1 eflag ||| CAN_ERR_CRTL_RX_OVERFLOW))
      else
        (s1, some (ist_err_can_id eflag, ist_err_data1 eflag))
    else (s1, none)
  let s2 := errStep.1
  let errFrame := errStep.2
  -- the bus-off branch runs force_quit = 1 / can_bus_off / hw_sleep / break
  let busoff := s2.canState = CAN_STATE_BUS_OFF ∧ s2.restartMs = 0
  { s :=
      if busoff then { s2 with forceQuit := true }
      else if intf = 0 then s2
      else if intf &&& CANINTF_TX ≠ 0 then
        (if s2.txLen ≠ 0 then
           { s2 with txPackets := s2.txPackets + 1, txLen := 0 }
         else
           { s2 with txPackets := s2.txPackets + 1 })
      else s2
    rx0 := rx0
    rx1 := rx1
    clearIntf := clear_intf
    eflgClear := eflgClear
    errFrame := errFrame
    txDone := decide (¬busoff ∧ intf ≠ 0 ∧ intf &&& CANINTF_TX ≠ 0)
    brk := decide (busoff ∨ intf = 0) }

/-- A sequence of handler passes: each element is the (CANINTF, EFLG) pair
read at the top of one pass; the `while (!priv->force_quit)` guard skips
the body once `forceQuit` is set. -/
def mcp2515_can_ist_run (passes : List (Nat × Nat)) (s : IstState) :
    IstState :=
  passes.foldl
    (fun st p =>
      if st.forceQuit then st else (mcp2515_can_ist_pass p.1 p.2 st).s)
    s

/-!
## Theorems
-/

/-- C1: the claim says the transfer drives data-out with each successive
bit of the byte, MSB first.  The code does not: `data_out` is never shifted
inside the 8-clock loop, so every clock drives bit 7 of the unshifted byte.
For outbound byte 0x01 all eight driven MOSI levels are low, while the
MSB-first bit sequence of 0x01 ends in a high bit; for byte 0x80 all eight
levels are high.  The inbound half of the loop does assemble the sampled
bits MSB-first as claimed (checked on a sample pattern). -/
theorem spi_trans_mosi_stuck_at_msb :
    (spiTransByte 0x01 (List.replicate 8 false)).1 =
      List.replicate 8 false ∧
    msbFirstBits 0x01 =
      [false, false, false, false, false, false, false, true] ∧
    (spiTransByte 0x01 (List.replicate 8 false)).1 ≠ msbFirstBits 0x01 ∧
    (spiTransByte 0x80 (List.replicate 8 false)).1 =
      List.replicate 8 true ∧
    (spiTransByte 0xA5
        [true, false, true, true, false, false, true, false]).2 =
      msbFirstByte [true, false, true, true, false, false, true, false] := by
  decide

/-- C3: the transmit encoder, applied to the standard-identifier frame with
id 0x123, DLC 2, data [0xAA, 0xBB] and no extended or remote flags, yields
SIDH = 0x24, SIDL = 0x60 with the extended-ID-enable bit clear, DLC byte
0x02, and the two data bytes 0xAA, 0xBB. -/
theorem hw_tx_standard_frame_0x123 :
    (mcp2515_hw_tx_buf ⟨0x123, 2, [0xAA, 0xBB]⟩ 0).getD TXBSIDH_OFF 0 =
      0x24 ∧
    (mcp2515_hw_tx_buf ⟨0x123, 2, [0xAA, 0xBB]⟩ 0).getD TXBSIDL_OFF 0 =
      0x60 ∧
    (mcp2515_hw_tx_buf ⟨0x123, 2, [0xAA, 0xBB]⟩ 0).getD TXBSIDL_OFF 0 &&&
      (1 <<< SIDL_EXIDE_SHIFT) = 0 ∧
    (mcp2515_hw_tx_buf ⟨0x123, 2, [0xAA, 0xBB]⟩ 0).getD TXBDLC_OFF 0 =
      0x02 ∧
    (mcp2515_hw_tx_buf ⟨0x123, 2, [0xAA, 0xBB]⟩ 0).getD TXBDAT_OFF 0 =
      0xAA ∧
    (mcp2515_hw_tx_buf ⟨0x123, 2, [0xAA, 0xBB]⟩ 0).getD (TXBDAT_OFF + 1) 0 =
      0xBB := by
  decide

/-- C4: encoding the extended 29-bit identifier 0x1ABCDEF sets the IDE bit
in the SIDL byte, and the receive decoder's reconstruction (which reads the
SIDH/SIDL/EID8/EID0 fields at the same offsets the encoder wrote them)
recovers exactly 0x1ABCDEF, tagged as an extended frame. -/
theorem hw_tx_rx_extended_id_roundtrip :
    (mcp2515_hw_tx_buf ⟨CAN_EFF_FLAG ||| 0x1ABCDEF, 0, []⟩ 0).getD
        TXBSIDL_OFF 0 &&& RXBSIDL_IDE ≠ 0 ∧
    mcp2515_hw_rx_id (mcp2515_hw_tx_buf ⟨CAN_EFF_FLAG ||| 0x1ABCDEF, 0, []⟩ 0)
        &&& CAN_EFF_MASK = 0x1ABCDEF ∧
    mcp2515_hw_rx_id (mcp2515_hw_tx_buf ⟨CAN_EFF_FLAG ||| 0x1ABCDEF, 0, []⟩ 0)
        &&& CAN_EFF_FLAG ≠ 0 := by
  decide

/-- C2: for every error-flags byte, the new link state follows the fixed
first-match-wins precedence bus-off > tx-error-passive > rx-error-passive >
tx-error-warning > rx-error-warning > error-active (flag bits 5, 4, 3, 2, 1
of EFLG respectively); in particular EFLG_TXBO together with EFLG_RXWAR
yields bus-off, never error-warning. -/
theorem ist_new_state_precedence :
    ∀ b : Fin 256,
      (b.val.testBit 5 → ist_new_state b.val = CAN_STATE_BUS_OFF) ∧
      (¬b.val.testBit 5 → b.val.testBit 4 →
        ist_new_state b.val = CAN_STATE_ERROR_PASSIVE) ∧
      (¬b.val.testBit 5 → ¬b.val.testBit 4 → b.val.testBit 3 →
        ist_new_state b.val = CAN_STATE_ERROR_PASSIVE) ∧
      (¬b.val.testBit 5 → ¬b.val.testBit 4 → ¬b.val.testBit 3 →
        b.val.testBit 2 → ist_new_state b.val = CAN_STATE_ERROR_WARNING) ∧
      (¬b.val.testBit 5 → ¬b.val.testBit 4 → ¬b.val.testBit 3 →
        ¬b.val.testBit 2 → b.val.testBit 1 →
        ist_new_state b.val = CAN_STATE_ERROR_WARNING) ∧
      (¬b.val.testBit 5 → ¬b.val.testBit 4 → ¬b.val.testBit 3 →
        ¬b.val.testBit 2 → ¬b.val.testBit 1 →
        ist_new_state b.val = CAN_STATE_ERROR_ACTIVE) ∧
      (b.val &&& EFLG_TXBO ≠ 0 → b.val &&& EFLG_RXWAR ≠ 0 →
        ist_new_state b.val = CAN_STATE_BUS_OFF ∧
        ist_new_state b.val ≠ CAN_STATE_ERROR_WARNING) := by
  intro b
  refine ⟨?_, ?_, ?_, ?_, ?_, ?_, ?_⟩ <;> revert b <;> decide

/-- Witness for C2 at the error-flags byte 0x22 = EFLG_TXBO | EFLG_RXWAR. -/
theorem ist_new_state_precedence_witness :
    ist_new_state 0x22 = CAN_STATE_BUS_OFF ∧
    ist_new_state 0x22 ≠ CAN_STATE_ERROR_WARNING :=
  (ist_new_state_precedence ⟨0x22, by decide⟩).2.2.2.2.2.2 (by decide)
    (by decide)

/-- C5: for every 14-byte receive-mailbox register image, including images
whose DLC register byte is arbitrary, the decoded frame's data length code
is at most 8 and exactly that many bytes are copied out of the data region
of the buffer. -/
theorem hw_rx_dlc_clamped :
    ∀ buf : List Nat, buf.length = SPI_TRANSFER_BUF_LEN →
      (mcp2515_hw_rx_decode buf).can_dlc ≤ CAN_FRAME_MAX_DATA_LEN ∧
      (mcp2515_hw_rx_decode buf).data.length =
        (mcp2515_hw_rx_decode buf).can_dlc := by
  intro buf h
  have hd : (mcp2515_hw_rx_decode buf).can_dlc ≤ CAN_FRAME_MAX_DATA_LEN :=
    Nat.min_le_right _ _
  refine ⟨hd, ?_⟩
  show ((buf.drop RXBDAT_OFF).take _).length = _
  rw [List.length_take, List.length_drop, h]
  exact Nat.min_eq_left (le_trans hd (by decide))

/-- Witness for C5 on a buffer whose DLC register byte reads 0xFF. -/
theorem hw_rx_dlc_clamped_witness :
    ([0, 0, 0, 0, 0, 0xFF, 1, 2, 3, 4, 5, 6, 7, 8] : List Nat).length =
      SPI_TRANSFER_BUF_LEN ∧
    (mcp2515_hw_rx_decode [0, 0, 0, 0, 0, 0xFF, 1, 2, 3, 4, 5, 6, 7, 8]
      ).can_dlc ≤ CAN_FRAME_MAX_DATA_LEN :=
  ⟨by decide,
   (hw_rx_dlc_clamped [0, 0, 0, 0, 0, 0xFF, 1, 2, 3, 4, 5, 6, 7, 8]
     (by decide)).1⟩

/-- C6: whenever the pending-transmit slot is occupied (a recorded frame or
a nonzero recorded length), submitting another frame returns
NETDEV_TX_BUSY and leaves the slot's frame and length fields unchanged. -/
theorem hard_start_xmit_backpressure :
    ∀ (skb : CanFrame) (skbValid : Bool) (s : XmitSlot),
      s.tx_skb ≠ none ∨ s.tx_len ≠ 0 →
      mcp2515_hard_start_xmit skb skbValid s = (NetdevTxResult.busy, s) := by
  intro skb v s h
  have hcond : s.tx_skb.isSome = true ∨ s.tx_len ≠ 0 := by
    rcases h with h | h
    · exact Or.inl (Option.isSome_iff_ne_none.mpr h)
    · exact Or.inr h
  unfold mcp2515_hard_start_xmit
  rw [if_pos hcond]

/-- Witness for C6 with an occupied slot. -/
theorem hard_start_xmit_backpressure_witness :
    mcp2515_hard_start_xmit ⟨0x123, 1, [0]⟩ true ⟨some ⟨0x100, 0, []⟩, 1⟩ =
      (NetdevTxResult.busy, ⟨some ⟨0x100, 0, []⟩, 1⟩) :=
  hard_start_xmit_backpressure ⟨0x123, 1, [0]⟩ true ⟨some ⟨0x100, 0, []⟩, 1⟩
    (Or.inl (by decide))

/-- Helper: CNF1 packing on the in-range field values (sjw-1 below 4,
brp-1 below 64): truncation is the identity and the two fields are
recoverable. -/
theorem cnf1_bridge :
    ∀ (a : Fin 4) (b : Fin 64),
      (((a.val <<< 6) ||| b.val) &&& 0xff = (a.val <<< 6) ||| b.val) ∧
      (((a.val <<< 6) ||| b.val) >>> 6 = a.val) ∧
      (((a.val <<< 6) ||| b.val) &&& 0x3f = b.val) := by
  decide

/-- Helper: CNF2 packing on in-range field values (phase_seg1-1 and
prop_seg-1 below 8). -/
theorem cnf2_bridge :
    ∀ (p q : Fin 8) (sam : Bool),
      ((0x80 ||| (if sam then 0x40 else 0) ||| (p.val <<< 3) ||| q.val) &&&
          0xff =
        0x80 ||| (if sam then 0x40 else 0) ||| (p.val <<< 3) ||| q.val) ∧
      ((0x80 ||| (if sam then 0x40 else 0) ||| (p.val <<< 3) ||| q.val) >>> 3
          &&& 7 = p.val) ∧
      ((0x80 ||| (if sam then 0x40 else 0) ||| (p.val <<< 3) ||| q.val) &&&
          7 = q.val) ∧
      ((0x80 ||| (if sam then 0x40 else 0) ||| (p.val <<< 3) ||| q.val) &&&
          0x80 = 0x80) ∧
      ((0x80 ||| (if sam then 0x40 else 0) ||| (p.val <<< 3) ||| q.val) &&&
          0x40 = if sam then 0x40 else 0) := by
  decide

/-- Helper: bit-modify of CNF3 with mask 7 on an 8-bit register: the low
three bits become the value, the upper bits are untouched. -/
theorem cnf3_bridge :
    ∀ (o : Fin 256) (v : Fin 8),
      (bitModify o.val 7 v.val &&& 7 = v.val) ∧
      (bitModify o.val 7 v.val >>> 3 = o.val >>> 3) := by
  decide

/-- C8: for one-based bit-timing inputs in the controller's ranges, every
hardware field is written as the input minus 1: CNF1 holds (sjw-1) in bits
7..6 and (brp-1) in bits 5..0, CNF2 holds (phase_seg1-1) shifted left by 3
and (prop_seg-1) in the low bits together with the BTLMODE and sample-flag
bits, and the bit-modify write to CNF3 sets its low three bits to
(phase_seg2-1) while leaving the other five bits unchanged. -/
theorem do_set_bittiming_minus_one :
    ∀ (bt : CanBittiming) (sam : Bool) (old : Nat),
      1 ≤ bt.sjw → bt.sjw ≤ 4 → 1 ≤ bt.brp → bt.brp ≤ 64 →
      1 ≤ bt.phase_seg1 → bt.phase_seg1 ≤ 8 →
      1 ≤ bt.prop_seg → bt.prop_seg ≤ 8 →
      1 ≤ bt.phase_seg2 → bt.phase_seg2 ≤ 8 → old < 256 →
      (cnf1Val bt = ((bt.sjw - 1) <<< CNF1_SJW_SHIFT) ||| (bt.brp - 1) ∧
       cnf1Val bt >>> 6 = bt.sjw - 1 ∧
       cnf1Val bt &&& 0x3f = bt.brp - 1) ∧
      (cnf2Val bt sam =
         CNF2_BTLMODE ||| (if sam then CNF2_SAM else 0) |||
           ((bt.phase_seg1 - 1) <<< CNF2_PS1_SHIFT) ||| (bt.prop_seg - 1) ∧
       cnf2Val bt sam >>> 3 &&& 7 = bt.phase_seg1 - 1 ∧
       cnf2Val bt sam &&& 7 = bt.prop_seg - 1 ∧
       cnf2Val bt sam &&& CNF2_BTLMODE = CNF2_BTLMODE ∧
       cnf2Val bt sam &&& CNF2_SAM = (if sam then CNF2_SAM else 0)) ∧
      (cnf3Updated old bt &&& CNF3_PHSEG2_MASK = bt.phase_seg2 - 1 ∧
       cnf3Updated old bt >>> 3 = old >>> 3) := by
  intro bt sam old h1 h2 h3 h4 h5 h6 h7 h8 h9 h10 h11
  have ha : bt.sjw - 1 < 4 := by omega
  have hb : bt.brp - 1 < 64 := by omega
  have hp : bt.phase_seg1 - 1 < 8 := by omega
  have hq : bt.prop_seg - 1 < 8 := by omega
  have hv : bt.phase_seg2 - 1 < 8 := by omega
  have ho : old < 256 := h11
  obtain ⟨c1a, c1b, c1c⟩ := cnf1_bridge ⟨bt.sjw - 1, ha⟩ ⟨bt.brp - 1, hb⟩
  obtain ⟨c2a, c2b, c2c, c2d, c2e⟩ :=
    cnf2_bridge ⟨bt.phase_seg1 - 1, hp⟩ ⟨bt.prop_seg - 1, hq⟩ sam
  obtain ⟨c3a, c3b⟩ := cnf3_bridge ⟨old, ho⟩ ⟨bt.phase_seg2 - 1, hv⟩
  have e1 : cnf1Val bt = ((bt.sjw - 1) <<< CNF1_SJW_SHIFT) ||| (bt.brp - 1) :=
    c1a
  have e2 : cnf2Val bt sam =
      CNF2_BTLMODE ||| (if sam then CNF2_SAM else 0) |||
        ((bt.phase_seg1 - 1) <<< CNF2_PS1_SHIFT) ||| (bt.prop_seg - 1) :=
    c2a
  refine ⟨⟨e1, ?_, ?_⟩, ⟨e2, ?_, ?_, ?_, ?_⟩, ⟨?_, ?_⟩⟩
  · rw [e1]; exact c1b
  · rw [e1]; exact c1c
  · rw [e2]; exact c2b
  · rw [e2]; exact c2c
  · rw [e2]; exact c2d
  · rw [e2]; exact c2e
  · exact c3a
  · exact c3b

/-- Witness for C8 at a concrete in-range bit timing. -/
theorem do_set_bittiming_minus_one_witness :
    cnf1Val ⟨1, 4, 4, 4, 4⟩ = ((1 - 1) <<< CNF1_SJW_SHIFT) ||| (4 - 1) ∧
    cnf3Updated 0xff ⟨1, 4, 4, 4, 4⟩ &&& CNF3_PHSEG2_MASK = 4 - 1 :=
  ⟨(do_set_bittiming_minus_one ⟨1, 4, 4, 4, 4⟩ false 0xff (by decide)
      (by decide) (by decide) (by decide) (by decide) (by decide) (by decide)
      (by decide) (by decide) (by decide) (by decide)).1.1,
   (do_set_bittiming_minus_one ⟨1, 4, 4, 4, 4⟩ false 0xff (by decide)
      (by decide) (by decide) (by decide) (by decide) (by decide) (by decide)
      (by decide) (by decide) (by decide) (by decide)).2.2.1⟩

/-- Helper: the CANINTF clear mask accumulated by a pass, in closed form:
the masked flags restricted to the error/transmit bits (lines 802-806). -/
theorem ist_pass_clearIntf_eq (i e : Nat) (s : IstState) :
    (mcp2515_can_ist_pass i e s).clearIntf =
      if (i &&& (CANINTF_RX ||| CANINTF_TX ||| CANINTF_ERR)) &&&
           (CANINTF_ERR ||| CANINTF_TX) ≠ 0 then
        (i &&& (CANINTF_RX ||| CANINTF_TX ||| CANINTF_ERR)) &&&
          (CANINTF_ERR ||| CANINTF_TX)
      else 0 := rfl

set_option maxHeartbeats 1600000 in
/-- Helper: both error counters as computed by a pass (the rest of the pass
never touches them). -/
theorem ist_pass_counters (i e : Nat) (s : IstState) :
    (mcp2515_can_ist_pass i e s).s.errorWarning =
      (canStatsUpdate s.canState (ist_new_state e) s.errorWarning
        s.errorPassive).1 ∧
    (mcp2515_can_ist_pass i e s).s.errorPassive =
      (canStatsUpdate s.canState (ist_new_state e) s.errorWarning
        s.errorPassive).2 := by
  unfold mcp2515_can_ist_pass
  refine ⟨?_, ?_⟩ <;> dsimp only <;> split_ifs <;> rfl

/-- Helper: the precedence chain only produces the four bus states. -/
theorem ist_new_state_le (e : Nat) :
    ist_new_state e ≤ CAN_STATE_BUS_OFF := by
  unfold ist_new_state
  split_ifs <;> decide

/-- Helper: closed form of the warning-counter update. -/
theorem canStatsUpdate_warning_eq (o n ew ep : Nat)
    (hn : n ≤ CAN_STATE_BUS_OFF) :
    (canStatsUpdate o n ew ep).1 =
      ew + if o = CAN_STATE_ERROR_ACTIVE ∧ CAN_STATE_ERROR_WARNING ≤ n
           then 1 else 0 := by
  unfold canStatsUpdate
  simp only [CAN_STATE_ERROR_ACTIVE, CAN_STATE_ERROR_WARNING,
    CAN_STATE_ERROR_PASSIVE, CAN_STATE_BUS_OFF] at *
  split_ifs <;> omega

/-- Helper: closed form of the passive-counter update. -/
theorem canStatsUpdate_passive_eq (o n ew ep : Nat)
    (hn : n ≤ CAN_STATE_BUS_OFF) :
    (canStatsUpdate o n ew ep).2 =
      ep + if o ≤ CAN_STATE_ERROR_WARNING ∧ CAN_STATE_ERROR_PASSIVE ≤ n
           then 1 else 0 := by
  unfold canStatsUpdate
  simp only [CAN_STATE_ERROR_ACTIVE, CAN_STATE_ERROR_WARNING,
    CAN_STATE_ERROR_PASSIVE, CAN_STATE_BUS_OFF] at *
  split_ifs <;> omega

/-- Helper: one pass never decreases either counter. -/
theorem ist_pass_counters_mono (i e : Nat) (s : IstState) :
    s.errorWarning ≤ (mcp2515_can_ist_pass i e s).s.errorWarning ∧
    s.errorPassive ≤ (mcp2515_can_ist_pass i e s).s.errorPassive := by
  obtain ⟨h1, h2⟩ := ist_pass_counters i e s
  rw [h1, h2,
    canStatsUpdate_warning_eq _ _ _ _ (ist_new_state_le e),
    canStatsUpdate_passive_eq _ _ _ _ (ist_new_state_le e)]
  constructor <;> split <;> omega

/-- C7: across every sequence of interrupt-handler passes the
error-warning and error-passive counters never decrease, and in each
single pass the warning counter is incremented (by one) exactly when the
state moves from error-active to a state at least error-warning, and the
passive counter exactly when the state moves from a state at most
error-warning to a state at least error-passive. -/
theorem error_counters_monotone_and_exact :
    (∀ (passes : List (Nat × Nat)) (s : IstState),
       s.errorWarning ≤ (mcp2515_can_ist_run passes s).errorWarning ∧
       s.errorPassive ≤ (mcp2515_can_ist_run passes s).errorPassive) ∧
    (∀ (i e : Nat) (s : IstState),
       (mcp2515_can_ist_pass i e s).s.errorWarning =
         s.errorWarning +
           (if s.canState = CAN_STATE_ERROR_ACTIVE ∧
               CAN_STATE_ERROR_WARNING ≤ ist_new_state e
            then 1 else 0) ∧
       (mcp2515_can_ist_pass i e s).s.errorPassive =
         s.errorPassive +
           (if s.canState ≤ CAN_STATE_ERROR_WARNING ∧
               CAN_STATE_ERROR_PASSIVE ≤ ist_new_state e
            then 1 else 0)) := by
  constructor
  · intro passes
    induction passes with
    | nil => intro s; exact ⟨Nat.le_refl _, Nat.le_refl _⟩
    | cons p rest ih =>
      intro s
      show s.errorWarning ≤
          (mcp2515_can_ist_run rest
            (if s.forceQuit then s else (mcp2515_can_ist_pass p.1 p.2 s).s)
          ).errorWarning ∧
        s.errorPassive ≤
          (mcp2515_can_ist_run rest
            (if s.forceQuit then s else (mcp2515_can_ist_pass p.1 p.2 s).s)
          ).errorPassive
      split
      · exact ih s
      · obtain ⟨m1, m2⟩ := ist_pass_counters_mono p.1 p.2 s
        obtain ⟨r1, r2⟩ := ih (mcp2515_can_ist_pass p.1 p.2 s).s
        exact ⟨le_trans m1 r1, le_trans m2 r2⟩
  · intro i e s
    obtain ⟨h1, h2⟩ := ist_pass_counters i e s
    rw [h1, h2,
      canStatsUpdate_warning_eq _ _ _ _ (ist_new_state_le e),
      canStatsUpdate_passive_eq _ _ _ _ (ist_new_state_le e)]
    exact ⟨rfl, rfl⟩

/-- Witness for C7 on a concrete two-pass sequence from a fresh state. -/
theorem error_counters_monotone_and_exact_witness :
    (⟨0, 0, 0, 0, 0, false, 0, 0, 0⟩ : IstState).errorWarning ≤
      (mcp2515_can_ist_run [(0x20, 0x22), (0, 0)]
        ⟨0, 0, 0, 0, 0, false, 0, 0, 0⟩).errorWarning ∧
    (mcp2515_can_ist_pass 0x20 0x22
        ⟨0, 0, 0, 0, 0, false, 0, 0, 0⟩).s.errorWarning =
      (⟨0, 0, 0, 0, 0, false, 0, 0, 0⟩ : IstState).errorWarning +
        (if (⟨0, 0, 0, 0, 0, false, 0, 0, 0⟩ : IstState).canState =
              CAN_STATE_ERROR_ACTIVE ∧
            CAN_STATE_ERROR_WARNING ≤ ist_new_state 0x22
         then 1 else 0) :=
  ⟨(error_counters_monotone_and_exact.1 [(0x20, 0x22), (0, 0)]
      ⟨0, 0, 0, 0, 0, false, 0, 0, 0⟩).1,
   (error_counters_monotone_and_exact.2 0x20 0x22
      ⟨0, 0, 0, 0, 0, false, 0, 0, 0⟩).1⟩

/-- C9: in every interrupt-handler pass the clear mask written back to
CANINTF via masked-bit-clear contains only transmit-complete and
error-interrupt bits and never a receive-buffer-ready bit; and the
bit-modify operation leaves every register bit outside its mask unchanged
(on 8-bit register contents), so a receive flag asserted outside a
transmit-only mask stays asserted. -/
theorem clear_mask_only_tx_err_and_write_bits_masked :
    (∀ (i e : Nat) (s : IstState),
       (mcp2515_can_ist_pass i e s).clearIntf &&& CANINTF_RX = 0 ∧
       (mcp2515_can_ist_pass i e s).clearIntf &&&
         (0xff ^^^ (CANINTF_TX ||| CANINTF_ERR)) = 0) ∧
    (∀ (reg mask val j : Nat), reg < 256 → mask < 256 →
       mask.testBit j = false →
       (bitModify reg mask val).testBit j = reg.testBit j) ∧
    (bitModify (CANINTF_TX ||| CANINTF_RX0IF) CANINTF_TX 0 &&&
       CANINTF_RX0IF ≠ 0) := by
  refine ⟨?_, ?_, by decide⟩
  · intro i e s
    rw [ist_pass_clearIntf_eq]
    constructor
    · split
      · rw [Nat.and_assoc,
          (by decide : (CANINTF_ERR ||| CANINTF_TX) &&& CANINTF_RX = 0),
          Nat.and_zero]
      · rw [Nat.zero_and]
    · split
      · rw [Nat.and_assoc,
          (by decide : (CANINTF_ERR ||| CANINTF_TX) &&&
            (0xff ^^^ (CANINTF_TX ||| CANINTF_ERR)) = 0),
          Nat.and_zero]
      · rw [Nat.zero_and]
  · intro reg mask val j hr hm hbit
    unfold bitModify
    simp only [Nat.testBit_or, Nat.testBit_and, Nat.testBit_xor, hbit,
      Bool.and_false, Bool.or_false, Bool.xor_false]
    by_cases hj : j < 8
    · have h255 : (0xff : Nat).testBit j = true := by
        show (2 ^ 8 - 1 : Nat).testBit j = true
        rw [Nat.testBit_two_pow_sub_one]
        simpa using hj
      rw [h255, Bool.and_true]
    · have hge : (2 : Nat) ^ 8 ≤ 2 ^ j :=
        Nat.pow_le_pow_right (by omega) (by omega)
      have h255 : (0xff : Nat).testBit j = false :=
        Nat.testBit_lt_two_pow (by omega)
      have hreg : reg.testBit j = false :=
        Nat.testBit_lt_two_pow (by omega)
      rw [h255, hreg, Bool.false_and]

/-- Witness for C9 at a concrete pass and a concrete bit-modify call. -/
theorem clear_mask_only_tx_err_and_write_bits_masked_witness :
    (mcp2515_can_ist_pass 0xff 0 ⟨0, 0, 0, 0, 0, false, 0, 0, 0⟩).clearIntf
      &&& CANINTF_RX = 0 ∧
    (bitModify 0x1d 0x1c 0).testBit 0 = (0x1d : Nat).testBit 0 :=
  ⟨(clear_mask_only_tx_err_and_write_bits_masked.1 0xff 0
      ⟨0, 0, 0, 0, 0, false, 0, 0, 0⟩).1,
   clear_mask_only_tx_err_and_write_bits_masked.2.1 0x1d 0x1c 0 0
     (by decide) (by decide) (by decide)⟩

/-- C10: the interrupt-flags byte is masked to the two receive-ready, the
three transmit-complete and the error-interrupt bits before any action: the
whole pass depends only on that masked value (so MERRF and WAKIF are never
acted on), the clear mask never contains MERRF or WAKIF, and a pass in
which only MERRF and WAKIF are set (and no error flags are pending) makes
no delivery, clears nothing, and exits the loop as quiescent. -/
theorem ist_ignores_merrf_wakif :
    (∀ (i e : Nat) (s : IstState),
       mcp2515_can_ist_pass i e s =
         mcp2515_can_ist_pass
           (i &&& (CANINTF_RX ||| CANINTF_TX ||| CANINTF_ERR)) e s) ∧
    (∀ (i e : Nat) (s : IstState),
       (mcp2515_can_ist_pass i e s).clearIntf &&&
         (CANINTF_MERRF ||| CANINTF_WAKIF) = 0) ∧
    (∀ (i : Nat) (s : IstState),
       i &&& (CANINTF_RX ||| CANINTF_TX ||| CANINTF_ERR) = 0 →
       (mcp2515_can_ist_pass i 0 s).rx0 = false ∧
       (mcp2515_can_ist_pass i 0 s).rx1 = false ∧
       (mcp2515_can_ist_pass i 0 s).clearIntf = 0 ∧
       (mcp2515_can_ist_pass i 0 s).errFrame = none ∧
       (mcp2515_can_ist_pass i 0 s).eflgClear = 0 ∧
       (mcp2515_can_ist_pass i 0 s).brk = true) := by
  refine ⟨?_, ?_, ?_⟩
  · intro i e s
    unfold mcp2515_can_ist_pass
    rw [Nat.and_assoc, Nat.and_self]
  · intro i e s
    rw [ist_pass_clearIntf_eq]
    split
    · rw [Nat.and_assoc,
        (by decide : (CANINTF_ERR ||| CANINTF_TX) &&&
          (CANINTF_MERRF ||| CANINTF_WAKIF) = 0),
        Nat.and_zero]
    · rw [Nat.zero_and]
  · intro i s h
    unfold mcp2515_can_ist_pass
    rw [h]
    simp [ist_new_state, canStatsUpdate, CAN_STATE_ERROR_ACTIVE,
      CAN_STATE_BUS_OFF, EFLG_TXBO, EFLG_TXEP, EFLG_RXEP, EFLG_TXWAR,
      EFLG_RXWAR, EFLG_RX0OVR, EFLG_RX1OVR, CANINTF_RX0IF, CANINTF_RX1IF,
      CANINTF_ERRIF, CANINTF_ERR, CANINTF_TX, CANINTF_TX0IF, CANINTF_TX1IF,
      CANINTF_TX2IF]

/-- Witness for C10: a pass whose interrupt byte has only MERRF and WAKIF
set exits quiescently with no clear mask. -/
theorem ist_ignores_merrf_wakif_witness :
    (0xc0 : Nat) &&& (CANINTF_RX ||| CANINTF_TX ||| CANINTF_ERR) = 0 ∧
    (mcp2515_can_ist_pass 0xc0 0 ⟨0, 0, 0, 0, 0, false, 0, 0, 0⟩).brk =
      true ∧
    (mcp2515_can_ist_pass 0xc0 0 ⟨0, 0, 0, 0, 0, false, 0, 0, 0⟩).clearIntf =
      0 :=
  ⟨by decide,
   (ist_ignores_merrf_wakif.2.2 0xc0 ⟨0, 0, 0, 0, 0, false, 0, 0, 0⟩
     (by decide)).2.2.2.2.2,
   (ist_ignores_merrf_wakif.2.2 0xc0 ⟨0, 0, 0, 0, 0, false, 0, 0, 0⟩
     (by decide)).2.2.1⟩

end Mcp2515
